import Mathlib

/-!
Shallow embedding of the GHG Protocol calculation engine
(`backend/app/core/calculations/ghg_calculator.py`) and of the data
normalization pipeline (`backend/data_normalization_pipeline.py`).

Modelling conventions:
* Python `Decimal` and `float` arithmetic is modelled over `ℚ` (the claims
  under study are either exact in `ℚ` or carry explicit tolerances).
* A Python dict field that may be missing, `None`, or a number is modelled
  by the three-state type `Fld`.
* Code that can raise is modelled in `Except String`; the string is the
  kind of exception raised.
* The external `pint` unit registry (a third-party library, not part of
  this repository) is modelled as an explicit function parameter
  `pint : ℚ → String → String → Option ℚ`; `none` means pint fails.
* Purely textual audit artefacts (the normalization log, the static
  scope-3 exclusion/methodology texts) are omitted: they are static
  strings with no control-flow role.
-/

namespace GHG

/-- Round a rational to the nearest integer, ties to even
(the rounding mode of Python's `round`). -/
def roundHalfEven (q : ℚ) : ℤ :=
  let f := ⌊q⌋
  let r := q - (f : ℚ)
  if r < 1/2 then f
  else if 1/2 < r then f + 1
  else if f % 2 = 0 then f else f + 1

/-- Python `round(x, 2)`. -/
def pyRound2 (q : ℚ) : ℚ := (roundHalfEven (q * 100) : ℚ) / 100

/-- Plain rendering of a rational, used where Python interpolates a
number into an f-string. -/
def qStr (q : ℚ) : String :=
  if q.den = 1 then toString q.num else toString q.num ++ "/" ++ toString q.den

/-- Rendering of a rational with two decimal places, used where Python
formats with `:.2f`. -/
def fix2 (q : ℚ) : String :=
  let n := roundHalfEven (q * 100)
  let a := n.natAbs
  let fracPart := a % 100
  (if n < 0 then "-" else "") ++ toString (a / 100) ++ "." ++
    (if fracPart < 10 then "0" else "") ++ toString fracPart

/-- Lower-case an ASCII letter (unit names and country names in this
code base are ASCII, so this models Python `str.lower` on them). -/
def lowerChar : Char → Char
  | 'A' => 'a' | 'B' => 'b' | 'C' => 'c' | 'D' => 'd' | 'E' => 'e'
  | 'F' => 'f' | 'G' => 'g' | 'H' => 'h' | 'I' => 'i' | 'J' => 'j'
  | 'K' => 'k' | 'L' => 'l' | 'M' => 'm' | 'N' => 'n' | 'O' => 'o'
  | 'P' => 'p' | 'Q' => 'q' | 'R' => 'r' | 'S' => 's' | 'T' => 't'
  | 'U' => 'u' | 'V' => 'v' | 'W' => 'w' | 'X' => 'x' | 'Y' => 'y'
  | 'Z' => 'z' | c => c

/-- Python `s.lower()`. -/
def strLower (s : String) : String := String.mk (s.toList.map lowerChar)

/-- Check that the first list is an initial segment of the second. -/
def beginsWith : List Char → List Char → Bool
  | [], _ => true
  | _ :: _, [] => false
  | a :: as, b :: bs => a == b && beginsWith as bs

/-- Auxiliary scan for substring containment. -/
def hasSubAux (sub : List Char) : List Char → Bool
  | [] => sub.isEmpty
  | c :: rest => beginsWith sub (c :: rest) || hasSubAux sub rest

/-- Python `sub in s` on strings. -/
def strContains (s sub : String) : Bool := hasSubAux sub.toList s.toList

/-- Fuelled left-to-right scan returning the final segment of a
non-overlapping split on `sep` (the list after the last separator hit).
One character is consumed per step, so `length + 1` fuel suffices. -/
def lastSegAux (sep : List Char) : ℕ → List Char → List Char → List Char
  | 0, s, acc => acc.reverse ++ s
  | _ + 1, [], acc => acc.reverse
  | fuel + 1, c :: rest, acc =>
    if beginsWith sep (c :: rest) then
      lastSegAux sep fuel ((c :: rest).drop sep.length) []
    else lastSegAux sep fuel rest (c :: acc)

/-- Python `s.split(sep)[-1]` for a non-empty separator: the part of `s`
after the last (left-to-right, non-overlapping) occurrence of `sep`, or
all of `s` when `sep` does not occur. -/
def splitLast (sep s : String) : String :=
  String.mk (lastSegAux sep.toList (s.toList.length + 1) s.toList [])

/-- First-match association-list lookup with default (Python `dict.get(k, d)`). -/
def assocD {α : Type} : List (String × α) → String → α → α
  | [], _, d => d
  | (k, v) :: rest, key, d => if k = key then v else assocD rest key d

/-- First-match association-list lookup (Python `dict.get(k)` / `k in dict`). -/
def assocFind {α : Type} : List (String × α) → String → Option α
  | [], _ => none
  | (k, v) :: rest, key => if k = key then some v else assocFind rest key

/-- Integer-keyed association-list lookup with default. -/
def assocZ {α : Type} : List (ℤ × α) → ℤ → α → α
  | [], _, d => d
  | (k, v) :: rest, key, d => if k = key then v else assocZ rest key d

/-- Python truthiness-based `a or b` on an optional numeric value:
`None` and `Decimal(0)` are falsy, so both give the default. -/
def pyOr (a : Option ℚ) (b : ℚ) : ℚ :=
  match a with
  | none => b
  | some v => if v = 0 then b else v

/-- Result of an emission calculation (`EmissionResult`). -/
structure EmissionResult where
  co2e_kg : ℚ
  co2_kg : ℚ
  ch4_kg : ℚ
  n2o_kg : ℚ
  calculation_formula : String
  uncertainty_percentage : Option ℚ
  deriving Repr, DecidableEq

/-- `EmissionResult.__init__`: `co2_kg` defaults to the full total when the
supplied value is `None` or falsy `Decimal(0)`; `ch4_kg`/`n2o_kg` default
to `0` the same way. -/
def EmissionResult.make (co2e_kg : ℚ) (co2_kg ch4_kg n2o_kg : Option ℚ)
    (calculation_formula : String) (uncertainty_percentage : Option ℚ) :
    EmissionResult :=
  ⟨co2e_kg, pyOr co2_kg co2e_kg, pyOr ch4_kg 0, pyOr n2o_kg 0,
   calculation_formula, uncertainty_percentage⟩

/-- Derived property `co2e_tons`. -/
def EmissionResult.co2e_tons (r : EmissionResult) : ℚ := r.co2e_kg / 1000

/-- Optional per-gas fractions (`gas_breakdown` dict). -/
structure GasBreakdown where
  co2 : Option ℚ
  ch4 : Option ℚ
  n2o : Option ℚ
  deriving Repr, DecidableEq

/-! `UnitConverter` -/

/-- `UnitConverter.ENERGY_CONVERSIONS`. -/
def ENERGY_CONVERSIONS : List (String × ℚ) :=
  [("kwh_to_mwh", 0.001), ("kwh_to_gwh", 0.000001),
   ("kwh_to_tj", 0.0000036), ("btu_to_kwh", 0.000293071)]

/-- `UnitConverter.VOLUME_CONVERSIONS`. -/
def VOLUME_CONVERSIONS : List (String × ℚ) :=
  [("liters_to_gallons", 0.264172), ("gallons_to_liters", 3.78541),
   ("cubic_meters_to_liters", 1000)]

/-- `UnitConverter.MASS_CONVERSIONS`. -/
def MASS_CONVERSIONS : List (String × ℚ) :=
  [("kg_to_tons", 0.001), ("tons_to_kg", 1000),
   ("lbs_to_kg", 0.453592), ("kg_to_lbs", 2.20462)]

/-- `UnitConverter.DISTANCE_CONVERSIONS`. -/
def DISTANCE_CONVERSIONS : List (String × ℚ) :=
  [("km_to_miles", 0.621371), ("miles_to_km", 1.60934)]

/-- Scan of the four conversion dicts in source order for a key. -/
def tableLookup (key : String) : Option ℚ :=
  match assocFind ENERGY_CONVERSIONS key with
  | some c => some c
  | none =>
    match assocFind VOLUME_CONVERSIONS key with
    | some c => some c
    | none =>
      match assocFind MASS_CONVERSIONS key with
      | some c => some c
      | none => assocFind DISTANCE_CONVERSIONS key

/-- `UnitConverter.convert`: same-unit no-op, then direct table key,
then reverse table key (divide), then the pint fallback; raises
`ValueError` ("Cannot convert ...") when everything fails. -/
def convert (pint : ℚ → String → String → Option ℚ)
    (value : ℚ) (from_unit to_unit : String) : Except String ℚ :=
  let fu := strLower from_unit
  let tu := strLower to_unit
  if fu = tu then .ok value
  else
    match tableLookup (fu ++ "_to_" ++ tu) with
    | some c => .ok (value * c)
    | none =>
      match tableLookup (tu ++ "_to_" ++ fu) with
      | some c => .ok (value / c)
      | none =>
        match pint value fu tu with
        | some m => .ok m
        | none => .error ("Cannot convert " ++ fu ++ " to " ++ tu)

/-- `UnitConverter.to_kg_co2e`: magnitude inferred by substring matching,
defaulting to kilograms. -/
def to_kg_co2e (value : ℚ) (unit : String) : ℚ :=
  let u := strLower unit
  if strContains u "ton" || strContains u "tonne" then value * 1000
  else if strContains u "kg" then value
  else if strContains u "g" then value / 1000
  else value

/-! `Scope1Calculator` -/

/-- Expected activity unit parsed from the factor unit's
`<magnitude>_per_<unit>` pattern; the caller's unit when no `_per_`
occurs. -/
def expectedUnitOf (emission_factor_unit activity_unit : String) : String :=
  if strContains emission_factor_unit "_per_" then
    splitLast "_per_" emission_factor_unit
  else activity_unit

/-- `Scope1Calculator.calculate_emission`: conversion failure is caught
and the caller's amount is used unchanged; the factor magnitude is
adjusted by substring matching on the factor unit. -/
def calculate_emission (pint : ℚ → String → String → Option ℚ)
    (activity_amount : ℚ) (activity_unit : String)
    (emission_factor : ℚ) (emission_factor_unit : String)
    (gas_breakdown : Option GasBreakdown) : EmissionResult :=
  let expected_unit := expectedUnitOf emission_factor_unit activity_unit
  let standardized_amount :=
    match convert pint activity_amount activity_unit expected_unit with
    | .ok v => v
    | .error _ => activity_amount
  let base := standardized_amount * emission_factor
  let efl := strLower emission_factor_unit
  let co2e_kg :=
    if strContains efl "ton" then to_kg_co2e base "tons"
    else if strContains efl "g" && !strContains efl "kg" then to_kg_co2e base "g"
    else base
  let co2_kg := gas_breakdown.map (fun g => co2e_kg * (g.co2.getD 1))
  let ch4_kg := gas_breakdown.map (fun g => co2e_kg * (g.ch4.getD 0))
  let n2o_kg := gas_breakdown.map (fun g => co2e_kg * (g.n2o.getD 0))
  let formula := qStr activity_amount ++ " " ++ activity_unit ++ " × " ++
    qStr emission_factor ++ " " ++ emission_factor_unit ++ " = " ++
    fix2 co2e_kg ++ " kg CO2e"
  EmissionResult.make co2e_kg co2_kg ch4_kg n2o_kg formula none

/-- `Scope1Calculator.calculate_fugitive_emissions`. -/
def calculate_fugitive_emissions (refrigerant_type : String)
    (amount_leaked : ℚ) (gwp : ℤ) : EmissionResult :=
  let co2e_kg := amount_leaked * (gwp : ℚ)
  let formula := qStr amount_leaked ++ " kg " ++ refrigerant_type ++
    " × GWP " ++ toString gwp ++ " = " ++ qStr co2e_kg ++ " kg CO2e"
  EmissionResult.make co2e_kg none none none formula none

/-! `Scope2Calculator` -/

/-- `Scope2Calculator.calculate_location_based`. -/
def calculate_location_based (electricity_kwh grid_emission_factor : ℚ)
    (gas_breakdown : Option GasBreakdown) : EmissionResult :=
  let co2e_kg := electricity_kwh * grid_emission_factor
  let co2_kg := gas_breakdown.map (fun g => co2e_kg * (g.co2.getD 0.95))
  let ch4_kg := gas_breakdown.map (fun g => co2e_kg * (g.ch4.getD 0.03))
  let n2o_kg := gas_breakdown.map (fun g => co2e_kg * (g.n2o.getD 0.02))
  let formula := qStr electricity_kwh ++ " kWh × " ++
    qStr grid_emission_factor ++ " kg CO2e/kWh = " ++ fix2 co2e_kg ++ " kg CO2e"
  EmissionResult.make co2e_kg co2_kg ch4_kg n2o_kg formula none

/-- `Scope2Calculator.calculate_market_based`: the supplier factor is
applied to the non-renewable portion only (`gas_breakdown` is accepted
but unused in the source). -/
def calculate_market_based (electricity_kwh supplier_emission_factor
    renewable_energy_kwh : ℚ) (gas_breakdown : Option GasBreakdown) :
    EmissionResult :=
  let _ := gas_breakdown
  let non_renewable_kwh := electricity_kwh - renewable_energy_kwh
  let co2e_kg := non_renewable_kwh * supplier_emission_factor
  let formula := "(" ++ qStr electricity_kwh ++ " kWh - " ++
    qStr renewable_energy_kwh ++ " renewable kWh) × " ++
    qStr supplier_emission_factor ++ " kg CO2e/kWh = " ++ fix2 co2e_kg ++ " kg CO2e"
  EmissionResult.make co2e_kg none none none formula none

/-- `Scope2Calculator.calculate_steam_heat`: substring-matched
normalization to MMBtu, then amount × factor. -/
def calculate_steam_heat (amount : ℚ) (unit : String)
    (emission_factor : ℚ) (emission_factor_unit : String) : EmissionResult :=
  let u := strLower unit
  let standardized_amount :=
    if strContains u "mmbtu" then amount
    else if strContains u "gj" then amount * 0.947817
    else if strContains u "kwh" then amount * 0.00341214
    else amount
  let co2e_kg := standardized_amount * emission_factor
  let formula := qStr amount ++ " " ++ unit ++ " × " ++ qStr emission_factor ++
    " " ++ emission_factor_unit ++ " = " ++ fix2 co2e_kg ++ " kg CO2e"
  EmissionResult.make co2e_kg none none none formula none

/-! `Scope3Calculator` -/

/-- `Scope3Calculator.CATEGORIES`. -/
def CATEGORIES : List (ℤ × String) :=
  [(1, "Purchased goods and services"), (2, "Capital goods"),
   (3, "Fuel- and energy-related activities"),
   (4, "Upstream transportation and distribution"),
   (5, "Waste generated in operations"), (6, "Business travel"),
   (7, "Employee commuting"), (8, "Upstream leased assets"),
   (9, "Downstream transportation and distribution"),
   (10, "Processing of sold products"), (11, "Use of sold products"),
   (12, "End-of-life treatment of sold products"),
   (13, "Downstream leased assets"), (14, "Franchises"), (15, "Investments")]

/-- Category display name, `CATEGORIES.get(category, f"Category {category}")`. -/
def categoryName (category : ℤ) : String :=
  assocZ CATEGORIES category ("Category " ++ toString category)

/-- `Scope3Calculator.calculate_spend_based`. -/
def calculate_spend_based (spend_amount : ℚ) (currency : String)
    (emission_factor : ℚ) (category : ℤ) : EmissionResult :=
  let co2e_kg := spend_amount * emission_factor
  let formula := qStr spend_amount ++ " " ++ currency ++ " × " ++
    qStr emission_factor ++ " kg CO2e/" ++ currency ++ " = " ++
    fix2 co2e_kg ++ " kg CO2e (" ++ categoryName category ++ ")"
  EmissionResult.make co2e_kg none none none formula none

/-- `Scope3Calculator.calculate_distance_based`: miles are converted to
km through the unit converter (which can in principle raise). -/
def calculate_distance_based (pint : ℚ → String → String → Option ℚ)
    (distance : ℚ) (distance_unit mode : String)
    (emission_factor : ℚ) (category : ℤ) : Except String EmissionResult := do
  let distance_km ←
    if strLower distance_unit = "miles" ∨ strLower distance_unit = "mi" then
      convert pint distance "miles" "km"
    else pure distance
  let co2e_kg := distance_km * emission_factor
  let formula := qStr distance_km ++ " km (" ++ mode ++ ") × " ++
    qStr emission_factor ++ " kg CO2e/km = " ++ fix2 co2e_kg ++
    " kg CO2e (" ++ categoryName category ++ ")"
  pure (EmissionResult.make co2e_kg none none none formula none)

/-- `Scope3Calculator.calculate_waste_based`: kg are divided by 1000 into
tons, then the source multiplies `waste_tons × emission_factor × 1000`
("convert back to kg"). -/
def calculate_waste_based (waste_amount : ℚ) (waste_unit : String)
    (waste_type disposal_method : String) (emission_factor : ℚ)
    (category : ℤ) : EmissionResult :=
  let _ := category
  let waste_tons :=
    if strLower waste_unit = "kg" ∨ strLower waste_unit = "kilograms" then
      waste_amount / 1000
    else waste_amount
  let co2e_kg := waste_tons * emission_factor * 1000
  let formula := qStr waste_tons ++ " tons " ++ waste_type ++ " (" ++
    disposal_method ++ ") × " ++ qStr emission_factor ++ " kg CO2e/ton = " ++
    fix2 co2e_kg ++ " kg CO2e"
  EmissionResult.make co2e_kg none none none formula none

/-! `GHGProtocolCalculator` (the router) -/

/-- Extra keyword context accepted by the router (`**kwargs`). -/
structure CalcContext where
  gas_breakdown : Option GasBreakdown
  scope_3_category : Option ℤ
  disposal_method : Option String
  deriving Repr, DecidableEq

/-- The error text of `raise ValueError(f"Invalid scope: ...")`. -/
def invalidScopeMsg (scope : ℤ) : String :=
  "Invalid scope: " ++ toString scope ++ ". Must be 1, 2, or 3"

/-- `GHGProtocolCalculator.calculate`: dispatch on scope, then on
category / `scope_3_category` (defaulted to 1); scope outside {1,2,3}
raises. -/
def calculate (pint : ℚ → String → String → Option ℚ) (scope : ℤ)
    (category : String) (activity_amount : ℚ) (activity_unit : String)
    (emission_factor : ℚ) (emission_factor_unit : String)
    (ctx : CalcContext) : Except String EmissionResult :=
  if scope = 1 then
    .ok (calculate_emission pint activity_amount activity_unit
      emission_factor emission_factor_unit ctx.gas_breakdown)
  else if scope = 2 then
    if category = "electricity" then
      .ok (calculate_location_based activity_amount emission_factor
        ctx.gas_breakdown)
    else
      .ok (calculate_steam_heat activity_amount activity_unit
        emission_factor emission_factor_unit)
  else if scope = 3 then
    if ctx.scope_3_category.getD 1 = 1 ∨ ctx.scope_3_category.getD 1 = 2 then
      .ok (calculate_spend_based activity_amount activity_unit
        emission_factor (ctx.scope_3_category.getD 1))
    else if ctx.scope_3_category.getD 1 = 4 ∨ ctx.scope_3_category.getD 1 = 6 ∨
        ctx.scope_3_category.getD 1 = 7 ∨ ctx.scope_3_category.getD 1 = 9 then
      calculate_distance_based pint activity_amount activity_unit category
        emission_factor (ctx.scope_3_category.getD 1)
    else if ctx.scope_3_category.getD 1 = 5 then
      .ok (calculate_waste_based activity_amount activity_unit category
        (ctx.disposal_method.getD "landfill") emission_factor
        (ctx.scope_3_category.getD 1))
    else
      .ok (calculate_emission pint activity_amount activity_unit
        emission_factor emission_factor_unit none)
  else .error (invalidScopeMsg scope)

/-! `DataNormalizationPipeline` (`backend/data_normalization_pipeline.py`).
Facility records are Python dicts; a numeric field can be missing, `None`,
or a number. -/

/-- Three-state dict field. -/
inductive Fld where
  | absent : Fld
  | null : Fld
  | num : ℚ → Fld
  deriving Repr, DecidableEq

/-- Python `facility.get(key, d)` for a numeric default `d`; the result is
still `None` when the key is present but maps to `None`. -/
def Fld.getD : Fld → ℚ → Option ℚ
  | .absent, d => some d
  | .null, _ => none
  | .num q, _ => some q

/-- Python `facility.get(key)`. -/
def Fld.getOpt : Fld → Option ℚ
  | .absent => none
  | .null => none
  | .num q => some q

/-- Python truthiness of `facility.get(key)`: a nonzero number. -/
def Fld.truthy : Fld → Bool
  | .num q => decide (q ≠ 0)
  | _ => false

/-- Numeric value of a field known to be a number (`0` otherwise). -/
def Fld.val : Fld → ℚ
  | .num q => q
  | _ => 0

/-- Whether the field holds a number. -/
def Fld.isNum : Fld → Bool
  | .num _ => true
  | _ => false

/-- Python `facility[key]` in a numeric position: `KeyError` when the key
is absent, `TypeError` when its value is `None`. -/
def Fld.item : Fld → String → Except String ℚ
  | .absent, key => .error ("KeyError: " ++ key)
  | .null, _ => .error "TypeError: unsupported operand type(s)"
  | .num q, _ => .ok q

/-- One facility record, restricted to the fields the pipeline reads.
String-valued fields are `Option` (present or absent); estimated flags
model `facility.get(flag)` truthiness. -/
structure Facility where
  facility_id : Option String
  address : Option String
  data_quality : Option String
  scope_1 : Fld
  scope_2 : Fld
  scope_3 : Fld
  natural_gas_therms : Fld
  electricity_kwh : Fld
  process_gases_kg : Option (List (String × ℚ))
  operational_months : Fld
  reporting_completeness : Fld
  scope_1_estimated : Bool
  scope_2_estimated : Bool
  scope_3_estimated : Bool
  scope_1_annualized : Option ℚ
  scope_2_annualized : Option ℚ
  scope_3_annualized : Option ℚ
  deriving Repr, DecidableEq

/-- A facility record with every field missing and no flags set. -/
def emptyFacility : Facility :=
  ⟨none, none, none, .absent, .absent, .absent, .absent, .absent, none,
   .absent, .absent, false, false, false, none, none, none⟩

/-- `EF_NATURAL_GAS`, tons CO2e per therm. -/
def EF_NATURAL_GAS : ℚ := 0.0053

/-- `EF_ELECTRICITY_DEFAULT`, tons CO2e per kWh (US average). -/
def EF_ELECTRICITY_DEFAULT : ℚ := 0.000389

/-- `GWP_VALUES` for process gases. -/
def GWP_VALUES : List (String × ℚ) :=
  [("NF3", 16100), ("SF6", 23500), ("CF4", 6630),
   ("CHF3", 12400), ("C2F6", 11100), ("C4F8", 8600)]

/-- Per-gas leakage term of the scope-1 estimate: 15% of the nameplate
mass escapes (85% abatement), converted to tons CO2e via the GWP. -/
def gasLeakTons (p : String × ℚ) : ℚ :=
  p.2 * 0.15 * assocD GWP_VALUES p.1 1 / 1000

/-- Scope-1 estimation block of `fill_missing_scope_data`: when
`facility.get('scope_1') is None`, sum the natural-gas term and the
process-gas leakage terms, round to 2 decimals, flag as estimated. -/
def fillScope1 (f : Facility) : Facility :=
  if f.scope_1.getOpt = none then
    let ng :=
      if f.natural_gas_therms.truthy then
        f.natural_gas_therms.val * EF_NATURAL_GAS
      else 0
    let pg :=
      match f.process_gases_kg with
      | some gs => (gs.map gasLeakTons).sum
      | none => 0
    { f with scope_1 := .num (pyRound2 (ng + pg)), scope_1_estimated := true }
  else f

/-- `grid_factors`, in source (insertion) order. -/
def grid_factors : List (String × ℚ) :=
  [("USA", 0.000389), ("Germany", 0.000310), ("Taiwan", 0.000502),
   ("South Korea", 0.000405), ("China", 0.000555), ("Singapore", 0.000392),
   ("Japan", 0.000463), ("Ireland", 0.000285), ("Malaysia", 0.000658)]

/-- First grid factor whose country name occurs in the address (directly
or case-insensitively); the US-average default otherwise. -/
def inferGridEF : List (String × ℚ) → String → ℚ
  | [], _ => EF_ELECTRICITY_DEFAULT
  | (country, factor) :: rest, address =>
    if strContains address country ||
        strContains (strLower address) (strLower country) then factor
    else inferGridEF rest address

/-- Scope-2 estimation block: only runs when electricity is available and
truthy; otherwise the gap is left as is (no flag, no estimate). -/
def fillScope2 (f : Facility) : Facility :=
  if f.scope_2.getOpt = none then
    if f.electricity_kwh.truthy then
      let ef := inferGridEF grid_factors (f.address.getD "")
      { f with scope_2 := .num (pyRound2 (f.electricity_kwh.val * ef)),
               scope_2_estimated := true }
    else f
  else f

/-- Scope-3 estimation block: 45% of `scope_1 + scope_2`, where each
operand is `facility.get(key, 0)` — a `None` value (present key) makes
the addition raise `TypeError`. -/
def fillScope3 (f : Facility) : Except String Facility :=
  if f.scope_3.getOpt = none then
    match f.scope_1.getD 0, f.scope_2.getD 0 with
    | some a, some b =>
      .ok { f with scope_3 := .num (pyRound2 ((a + b) * 0.45)),
                   scope_3_estimated := true }
    | _, _ => .error "TypeError: unsupported operand type(s)"
  else .ok f

/-- Annualization block: when `operational_months` is truthy and below 12,
rescale the three scope values by `12 / months` (keeping the raw
`_annualized` intermediates) and round to 2 decimals; `facility[key]`
raises on an absent or `None` scope. -/
def annualize (f : Facility) : Except String Facility :=
  match f.operational_months with
  | .num m =>
    if m ≠ 0 ∧ m < 12 then
      let annualization_factor := 12 / m
      do
        let a ← f.scope_1.item "scope_1"
        let b ← f.scope_2.item "scope_2"
        let c ← f.scope_3.item "scope_3"
        .ok { f with
          scope_1_annualized := some (a * annualization_factor),
          scope_2_annualized := some (b * annualization_factor),
          scope_3_annualized := some (c * annualization_factor),
          scope_1 := .num (pyRound2 (a * annualization_factor)),
          scope_2 := .num (pyRound2 (b * annualization_factor)),
          scope_3 := .num (pyRound2 (c * annualization_factor)) }
    else .ok f
  | _ => .ok f

/-- One iteration of the `fill_missing_scope_data` loop body: the
`facility['facility_id']` read, then the three estimation blocks, then
annualization. -/
def fillFacility (f : Facility) : Except String Facility :=
  match f.facility_id with
  | none => .error "KeyError: facility_id"
  | some _ => do
    let g ← fillScope3 (fillScope2 (fillScope1 f))
    annualize g

/-- `DataNormalizationPipeline.fill_missing_scope_data` over the facility
list; the first exception aborts the stage. -/
def fill_missing_scope_data : List Facility → Except String (List Facility)
  | [] => .ok []
  | f :: rest => do
    let f' ← fillFacility f
    let rest' ← fill_missing_scope_data rest
    .ok (f' :: rest')

/-! `calculate_totals` -/

/-- `sum(f.get(key, 0) for f in facilities)`: `None` values (present
keys) raise `TypeError` in the addition. -/
def sumScope (field : Facility → Fld) : List Facility → Except String ℚ
  | [] => .ok 0
  | f :: rest =>
    match (field f).getD 0 with
    | none => .error "TypeError: unsupported operand type(s)"
    | some v => do
      let s ← sumScope field rest
      .ok (v + s)

/-- The scope-3 categories `calculate_totals` reads from
`scope_3_raw_data`, in source order, with their dict keys. -/
def handledCategories : List (ℤ × String) :=
  [(1, "category_1"), (3, "category_3"), (4, "category_4"),
   (5, "category_5"), (6, "category_6"), (7, "category_7")]

/-- The raw scope-3 structure: category key to optional
`total_emissions_estimate` (the entry dict may lack that key). -/
def S3Raw : Type := List (String × Option ℚ)

/-- Build `scope_3_breakdown` by probing each handled category key;
a present entry without `total_emissions_estimate` raises `KeyError`. -/
def buildBreakdown : List (ℤ × String) → S3Raw → Except String (List (ℤ × ℚ))
  | [], _ => .ok []
  | (n, key) :: rest, raw =>
    match assocFind raw key with
    | none => buildBreakdown rest raw
    | some none => .error "KeyError: total_emissions_estimate"
    | some (some q) => do
      let tl ← buildBreakdown rest raw
      .ok ((n, q) :: tl)

/-- Company-level totals (the static exclusion/methodology text maps are
omitted; they carry no data). -/
structure Totals where
  scope_1_total : ℚ
  scope_2_total : ℚ
  scope_3_total : ℚ
  scope_3_breakdown : List (ℤ × ℚ)
  deriving Repr, DecidableEq

/-- `DataNormalizationPipeline.calculate_totals`: facility sums for
scopes 1 and 2; the facility scope-3 sum is computed (and can raise) but
the returned `scope_3_total` is recomputed from the category breakdown
alone. -/
def calculate_totals (facilities : List Facility) (raw : S3Raw) :
    Except String Totals := do
  let total_scope_1 ← sumScope Facility.scope_1 facilities
  let total_scope_2 ← sumScope Facility.scope_2 facilities
  let _total_scope_3 ← sumScope Facility.scope_3 facilities
  let breakdown ← buildBreakdown handledCategories raw
  let total_scope_3_from_categories := (breakdown.map Prod.snd).sum
  .ok ⟨total_scope_1, total_scope_2, total_scope_3_from_categories, breakdown⟩

/-! `assess_data_quality` -/

/-- `tier_scores`. -/
def tier_scores : List (String × ℚ) :=
  [("Tier 1", 5.0), ("Tier 2", 3.5), ("Tier 3", 2.0), ("Tier 4", 1.0)]

/-- Per-facility quality score: tier base (default tier "Tier 3", default
score 2.0) minus 0.5 per estimated scope. -/
def facilityScore (f : Facility) : ℚ :=
  let base := assocD tier_scores (f.data_quality.getD "Tier 3") 2.0
  let base := if f.scope_1_estimated then base - 0.5 else base
  let base := if f.scope_2_estimated then base - 0.5 else base
  if f.scope_3_estimated then base - 0.5 else base

/-- Per-facility emissions `get('scope_1',0)+get('scope_2',0)+get('scope_3',0)`;
`None` values raise `TypeError`. -/
def facilityEmissions (f : Facility) : Except String ℚ :=
  match f.scope_1.getD 0, f.scope_2.getD 0, f.scope_3.getD 0 with
  | some a, some b, some c => .ok (a + b + c)
  | _, _, _ => .error "TypeError: unsupported operand type(s)"

/-- Accumulate `(total_emissions, weighted_score_sum)` over the facility
loop. -/
def qualityAccum : List Facility → Except String (ℚ × ℚ)
  | [] => .ok (0, 0)
  | f :: rest => do
    let e ← facilityEmissions f
    let p ← qualityAccum rest
    .ok (e + p.1, e * facilityScore f + p.2)

/-- Count of facilities with `get('reporting_completeness', 0) > 0.75`;
a `None` completeness raises `TypeError` in the comparison. -/
def completeCount : List Facility → Except String ℕ
  | [] => .ok 0
  | f :: rest =>
    match f.reporting_completeness.getD 0 with
    | none => .error "TypeError: not supported between instances"
    | some q => do
      let n ← completeCount rest
      .ok ((if q > 0.75 then 1 else 0) + n)

/-- Count of facilities with any estimated scope. -/
def estimatedCount (facilities : List Facility) : ℕ :=
  (facilities.filter (fun f =>
    f.scope_1_estimated || f.scope_2_estimated || f.scope_3_estimated)).length

/-- The quality metrics dict returned by `assess_data_quality`. -/
structure QualityMetrics where
  data_quality_score : ℚ
  reporting_completeness : ℚ
  estimated_data_percentage : ℚ
  deriving Repr, DecidableEq

/-- `DataNormalizationPipeline.assess_data_quality`: emissions-weighted
tier scores divided by total emissions (2.5 when the total is not
positive), rounded to 2 decimals; the estimated-data percentage divides
by `len(facilities)` unconditionally, so an empty list raises
`ZeroDivisionError`. -/
def assess_data_quality (facilities : List Facility) :
    Except String QualityMetrics := do
  let p ← qualityAccum facilities
  let overall_quality := if p.1 > 0 then p.2 / p.1 else 2.5
  let cc ← completeCount facilities
  let overall_completeness :=
    if facilities.length ≠ 0 then (cc : ℚ) / facilities.length else 0
  if facilities.length = 0 then .error "ZeroDivisionError: division by zero"
  else
    .ok ⟨pyRound2 overall_quality, overall_completeness,
      (estimatedCount facilities : ℚ) / facilities.length⟩

/-! Derived notions used to state the claims. -/

/-- A pint oracle that always fails (used to instantiate theorems at
concrete inputs). -/
def pintNone : ℚ → String → String → Option ℚ := fun _ _ _ => none

/-- Whether the field is an explicit `None` value. -/
def Fld.isNull : Fld → Bool
  | .null => true
  | _ => false

/-- Whether the annualization block fires: truthy `operational_months`
below 12. -/
def annualizeActive : Fld → Bool
  | .num m => decide (m ≠ 0) && decide (m < 12)
  | _ => false

/-- Input condition under which the estimation/annualization stage cannot
raise: the record has a `facility_id`, and a `scope_2` gap the stage
cannot estimate is harmless — an explicit `None` `scope_2` is not
consumed by the scope-3 estimate (`TypeError`), and a `scope_2` that is
missing or `None` is not consumed by partial-year annualization
(`KeyError`/`TypeError`). -/
def fillSafe (f : Facility) : Bool :=
  f.facility_id.isSome &&
  (!(fillScope2 (fillScope1 f)).scope_3.getOpt.isNone ||
    !(fillScope2 (fillScope1 f)).scope_2.isNull) &&
  (!annualizeActive f.operational_months ||
    (fillScope2 (fillScope1 f)).scope_2.isNum)

/-- Scope-3 total as claim C3 reads it: the sum of every
`total_emissions_estimate` present anywhere in the raw structure. -/
def claimScope3Sum (raw : S3Raw) : ℚ :=
  ((raw : List (String × Option ℚ)).filterMap Prod.snd).sum

/-- Scope-3 total as the source computes it: the sum of the estimates of
the handled categories (1, 3, 4, 5, 6, 7) present in the raw structure. -/
def handledScope3Sum (raw : S3Raw) : ℚ :=
  (handledCategories.filterMap (fun p => (assocFind raw p.2).bind id)).sum

/-- Facility emissions value used by quality scoring, when no scope field
is an explicit `None`. -/
def facEmVal (f : Facility) : ℚ :=
  f.scope_1.val + f.scope_2.val + f.scope_3.val

/-- Company total emissions as summed by `assess_data_quality`. -/
def totalEmissions (facilities : List Facility) : ℚ :=
  (facilities.map facEmVal).sum

/-- Number of estimated-scope flags set on a facility. -/
def estFlagCount (f : Facility) : ℕ :=
  (if f.scope_1_estimated then 1 else 0) +
  (if f.scope_2_estimated then 1 else 0) +
  (if f.scope_3_estimated then 1 else 0)

/-- A Tier 1 facility whose numeric fields are never an explicit `None`
(so quality assessment cannot raise on it). -/
def tier1Numeric (f : Facility) : Prop :=
  f.data_quality = some "Tier 1" ∧ f.scope_1 ≠ .null ∧ f.scope_2 ≠ .null ∧
  f.scope_3 ≠ .null ∧ f.reporting_completeness ≠ .null

/-- The facility record of the C2 counterexample: `facility_id` present,
numeric `scope_1`, explicit `None` `scope_2` with no electricity data,
explicit `None` `scope_3`. -/
def c2BadFacility : Facility :=
  { emptyFacility with
      facility_id := some "F1"
      scope_1 := Fld.num 100
      scope_2 := Fld.null
      scope_3 := Fld.null }

/-- A second C2 counterexample record: `facility_id` present, numeric
`scope_1`/`scope_3`, `scope_2` key absent, no electricity, and a partial
year — annualization indexes the missing `scope_2` key. -/
def c2BadFacility2 : Facility :=
  { emptyFacility with
      facility_id := some "F2"
      scope_1 := Fld.num 100
      scope_3 := Fld.num 10
      operational_months := Fld.num 6 }

/-- A facility with `scope_1 = None` and 1000 therms of natural gas. -/
def c7Facility : Facility :=
  { emptyFacility with
      facility_id := some "F1"
      scope_1 := Fld.null
      natural_gas_therms := Fld.num 1000 }

/-- A half-year facility with 100 tons in each scope slot for scope 1 and
zero in the others. -/
def c8Facility : Facility :=
  { emptyFacility with
      facility_id := some "F1"
      operational_months := Fld.num 6
      scope_1 := Fld.num 100
      scope_2 := Fld.num 0
      scope_3 := Fld.num 0 }

/-- A facility whose three scope slots are plain numbers. -/
def numFacility : Facility :=
  { emptyFacility with
      scope_1 := Fld.num 10
      scope_2 := Fld.num 20
      scope_3 := Fld.num 30 }

/-- A raw scope-3 structure carrying estimates for a handled category (3)
and an unhandled one (11). -/
def c3WitnessRaw : S3Raw :=
  [("category_3", some 198650.4), ("category_11", some 2850000)]

/-- Tier 1 facility, 100 tons of scope-1 emissions, nothing estimated. -/
def c6CleanFacility : Facility :=
  { emptyFacility with
      data_quality := some "Tier 1"
      scope_1 := Fld.num 100 }

/-- Tier 1 facility, 100 tons of scope-1 emissions, scope 1 estimated. -/
def c6EstFacility : Facility :=
  { emptyFacility with
      data_quality := some "Tier 1"
      scope_1 := Fld.num 100
      scope_1_estimated := true }

/-- Tier 1 facility with zero emissions. -/
def c6ZeroFacility : Facility :=
  { emptyFacility with
      data_quality := some "Tier 1" }

/-! Theorems. -/

/-- Rounding a rational whose hundredfold is the integer `n` gives
`n / 100`. -/
lemma pyRound2_of_mul_hundred (q : ℚ) (n : ℤ) (h : q * 100 = (n : ℚ)) :
    pyRound2 q = (n : ℚ) / 100 := by
  unfold pyRound2 roundHalfEven
  rw [h, Int.floor_intCast]
  norm_num

/-- C1: the waste-based scope-3 calculator does not return mass in tons ×
factor (kg CO2e/ton) as its own docstring states: for 2000 kg of waste at
factor 100 it returns 200000 kg CO2e, a thousandfold of the documented
2 tons × 100 = 200 kg CO2e. -/
theorem c1_waste_based_extra_thousand :
    (calculate_waste_based 2000 "kg" "mixed" "landfill" 100 5).co2e_kg = 200000 ∧
    (2000 / 1000 : ℚ) * 100 = 200 ∧ (200000 : ℚ) ≠ 200 := by
  refine ⟨?_, by norm_num, by norm_num⟩
  show (2000 : ℚ) / 1000 * 100 * 1000 = 200000
  norm_num

/-- C9: market-based scope-2 emissions are
`(electricity_kwh − renewable_energy_kwh) × supplier_emission_factor`,
hence exactly 0 whenever the renewable amount equals the electricity
amount. -/
theorem c9_market_based (electricity_kwh supplier_emission_factor
    renewable_energy_kwh : ℚ) (gb : Option GasBreakdown) :
    (calculate_market_based electricity_kwh supplier_emission_factor
      renewable_energy_kwh gb).co2e_kg =
      (electricity_kwh - renewable_energy_kwh) * supplier_emission_factor ∧
    (renewable_energy_kwh = electricity_kwh →
      (calculate_market_based electricity_kwh supplier_emission_factor
        renewable_energy_kwh gb).co2e_kg = 0) := by
  constructor
  · rfl
  · intro h
    show (electricity_kwh - renewable_energy_kwh) * supplier_emission_factor = 0
    rw [h, sub_self, zero_mul]

/-- C9 witness: with 100 kWh fully covered by 100 renewable kWh at factor
0.5 the market-based result is 0. -/
theorem c9_market_based_witness :
    (calculate_market_based 100 0.5 100 none).co2e_kg = 0 :=
  (c9_market_based 100 0.5 100 none).2 rfl

/-- C10: a result built without a gas breakdown carries the full total as
`co2_kg` and `0` for `ch4_kg`/`n2o_kg`; a supplied component of exactly
`Decimal(0)` is indistinguishable from an omitted one (Python `or` treats
it as falsy); consequently no representable result has a zero `co2_kg`
while the total is nonzero. -/
theorem c10_gas_defaults :
    (∀ co2e fstr unc,
      (EmissionResult.make co2e none none none fstr unc).co2_kg = co2e ∧
      (EmissionResult.make co2e none none none fstr unc).ch4_kg = 0 ∧
      (EmissionResult.make co2e none none none fstr unc).n2o_kg = 0) ∧
    (∀ co2e c4 n2 fstr unc,
      EmissionResult.make co2e (some 0) c4 n2 fstr unc =
      EmissionResult.make co2e none c4 n2 fstr unc) ∧
    (∀ co2e c2 n2 fstr unc,
      EmissionResult.make co2e c2 (some 0) n2 fstr unc =
      EmissionResult.make co2e c2 none n2 fstr unc) ∧
    (∀ co2e c2 c4 fstr unc,
      EmissionResult.make co2e c2 c4 (some 0) fstr unc =
      EmissionResult.make co2e c2 c4 none fstr unc) ∧
    (∀ co2e c2 c4 n2 fstr unc, co2e ≠ 0 →
      (EmissionResult.make co2e c2 c4 n2 fstr unc).co2_kg ≠ 0) := by
  refine ⟨?_, ?_, ?_, ?_, ?_⟩
  · intro co2e fstr unc
    exact ⟨rfl, rfl, rfl⟩
  · intro co2e c4 n2 fstr unc
    rfl
  · intro co2e c2 n2 fstr unc
    rfl
  · intro co2e c2 c4 fstr unc
    rfl
  · intro co2e c2 c4 n2 fstr unc h
    show pyOr c2 co2e ≠ 0
    rcases c2 with _ | v
    · exact h
    · show (if v = 0 then co2e else v) ≠ 0
      by_cases hv : v = 0
      · rw [if_pos hv]; exact h
      · rw [if_neg hv]; exact hv

/-- C10 witness: instances of the defaulting behaviour at total 7. -/
theorem c10_gas_defaults_witness :
    (EmissionResult.make 7 none none none "f" none).co2_kg = 7 ∧
    EmissionResult.make 7 (some 0) none none "f" none =
      EmissionResult.make 7 none none none "f" none ∧
    (EmissionResult.make 7 (some 0) none none "f" none).co2_kg ≠ 0 :=
  ⟨(c10_gas_defaults.1 7 "f" none).1,
   c10_gas_defaults.2.1 7 none none "f" none,
   c10_gas_defaults.2.2.2.2 7 (some 0) none none "f" none (by norm_num)⟩

/-- C2 counterexample: a facility record with `facility_id` present,
`scope_1 = 100`, an explicit `scope_2 = None`, no electricity field and an
explicit `scope_3 = None` makes the estimation/annualization stage raise
`TypeError` (from `(scope_1 + scope_2) * 0.45` with `scope_2 = None`);
and a record with numeric `scope_1`/`scope_3`, no `scope_2` key, no
electricity and 6 operational months makes the annualization step raise
`KeyError` at `facility['scope_2']`. Neither gap becomes a flagged
estimate. -/
theorem c2_never_raises_cex :
    fill_missing_scope_data [c2BadFacility] =
      .error "TypeError: unsupported operand type(s)" ∧
    fill_missing_scope_data [c2BadFacility2] =
      .error "KeyError: scope_2" := ⟨rfl, rfl⟩

/-- C3 counterexample: with no facilities and a raw scope-3 structure
whose only entry is `category_11` with `total_emissions_estimate`
2850000, the pipeline's `scope_3_total` is 0, not the 2850000 sum of the
estimates present in the structure. -/
theorem c3_scope3_total_cex :
    (∃ t, calculate_totals [] [("category_11", some 2850000)] = .ok t ∧
      t.scope_3_total = 0) ∧
    claimScope3Sum [("category_11", some 2850000)] = 2850000 ∧
    (0 : ℚ) ≠ 2850000 := by
  refine ⟨⟨_, rfl, rfl⟩, ?_, by norm_num⟩
  unfold claimScope3Sum
  simp

/-- C5: when the activity unit cannot be converted to the unit parsed
from the factor unit's `<magnitude>_per_<unit>` pattern, the scope-1
engine proceeds with the caller's amount unchanged: the result's CO2e is
`activity_amount × emission_factor` (after the factor's magnitude
adjustment) and the audit formula built from exactly these values is
recorded. -/
theorem c5_conversion_fallback (pint : ℚ → String → String → Option ℚ)
    (activity_amount : ℚ) (activity_unit : String) (emission_factor : ℚ)
    (emission_factor_unit : String) (gb : Option GasBreakdown) (msg : String)
    (h : convert pint activity_amount activity_unit
      (expectedUnitOf emission_factor_unit activity_unit) = .error msg) :
    (calculate_emission pint activity_amount activity_unit emission_factor
      emission_factor_unit gb).co2e_kg =
      (if strContains (strLower emission_factor_unit) "ton" then
        to_kg_co2e (activity_amount * emission_factor) "tons"
      else if strContains (strLower emission_factor_unit) "g" &&
          !strContains (strLower emission_factor_unit) "kg" then
        to_kg_co2e (activity_amount * emission_factor) "g"
      else activity_amount * emission_factor) ∧
    (calculate_emission pint activity_amount activity_unit emission_factor
      emission_factor_unit gb).calculation_formula =
      qStr activity_amount ++ " " ++ activity_unit ++ " × " ++
      qStr emission_factor ++ " " ++ emission_factor_unit ++ " = " ++
      fix2 ((calculate_emission pint activity_amount activity_unit
        emission_factor emission_factor_unit gb).co2e_kg) ++ " kg CO2e" := by
  simp only [calculate_emission, h]
  exact ⟨rfl, rfl⟩

/-- C5 witness: converting "widgets" to the "liter" parsed from
"kg_co2e_per_liter" fails (no table path, pint fails), and the engine
returns `10 × 2 = 20` kg CO2e with the formula recorded. -/
theorem c5_conversion_fallback_witness :
    convert pintNone 10 "widgets"
      (expectedUnitOf "kg_co2e_per_liter" "widgets") =
      .error "Cannot convert widgets to liter" ∧
    (calculate_emission pintNone 10 "widgets" 2 "kg_co2e_per_liter"
      none).co2e_kg = 10 * 2 ∧
    (calculate_emission pintNone 10 "widgets" 2 "kg_co2e_per_liter"
      none).calculation_formula =
      qStr 10 ++ " widgets × " ++ qStr 2 ++ " kg_co2e_per_liter = " ++
      fix2 ((calculate_emission pintNone 10 "widgets" 2 "kg_co2e_per_liter"
        none).co2e_kg) ++ " kg CO2e" := by
  have h := c5_conversion_fallback pintNone 10 "widgets" 2 "kg_co2e_per_liter"
    none "Cannot convert widgets to liter" rfl
  exact ⟨rfl, h.1.trans rfl, h.2⟩

/-- The miles-to-km conversion is a direct table hit, whatever the pint
oracle does. -/
lemma convert_miles_km (pint : ℚ → String → String → Option ℚ) (v : ℚ) :
    convert pint v "miles" "km" = .ok (v * 1.60934) := rfl

/-- The distance-based scope-3 calculator never fails. -/
lemma calculate_distance_based_ok (pint : ℚ → String → String → Option ℚ)
    (distance : ℚ) (distance_unit mode : String) (emission_factor : ℚ)
    (category : ℤ) :
    ∃ r, calculate_distance_based pint distance distance_unit mode
      emission_factor category = .ok r := by
  unfold calculate_distance_based
  by_cases hdu : strLower distance_unit = "miles" ∨ strLower distance_unit = "mi"
  · rw [if_pos hdu, convert_miles_km]
    exact ⟨_, rfl⟩
  · rw [if_neg hdu]
    exact ⟨_, rfl⟩

/-- C4: the router raises its invalid-scope `ValueError` exactly when the
scope is outside {1,2,3}; for scopes 1, 2, 3 it always returns a result
(so in particular never that error). -/
theorem c4_invalid_scope (pint : ℚ → String → String → Option ℚ) (scope : ℤ)
    (category : String) (activity_amount : ℚ) (activity_unit : String)
    (emission_factor : ℚ) (emission_factor_unit : String) (ctx : CalcContext) :
    (scope ≠ 1 ∧ scope ≠ 2 ∧ scope ≠ 3 →
      calculate pint scope category activity_amount activity_unit
        emission_factor emission_factor_unit ctx = .error (invalidScopeMsg scope)) ∧
    (scope = 1 ∨ scope = 2 ∨ scope = 3 →
      ∃ r, calculate pint scope category activity_amount activity_unit
        emission_factor emission_factor_unit ctx = .ok r) := by
  constructor
  · rintro ⟨h1, h2, h3⟩
    unfold calculate
    rw [if_neg h1, if_neg h2, if_neg h3]
  · rintro (rfl | rfl | rfl)
    · exact ⟨_, rfl⟩
    · unfold calculate
      rw [if_neg (show (2 : ℤ) ≠ 1 by norm_num), if_pos rfl]
      by_cases hc : category = "electricity"
      · rw [if_pos hc]; exact ⟨_, rfl⟩
      · rw [if_neg hc]; exact ⟨_, rfl⟩
    · unfold calculate
      rw [if_neg (show (3 : ℤ) ≠ 1 by norm_num),
        if_neg (show (3 : ℤ) ≠ 2 by norm_num), if_pos rfl]
      by_cases h12 : ctx.scope_3_category.getD 1 = 1 ∨ ctx.scope_3_category.getD 1 = 2
      · rw [if_pos h12]; exact ⟨_, rfl⟩
      · rw [if_neg h12]
        by_cases h4 : ctx.scope_3_category.getD 1 = 4 ∨ ctx.scope_3_category.getD 1 = 6 ∨
            ctx.scope_3_category.getD 1 = 7 ∨ ctx.scope_3_category.getD 1 = 9
        · rw [if_pos h4]
          exact calculate_distance_based_ok pint activity_amount activity_unit
            category emission_factor _
        · rw [if_neg h4]
          by_cases h5 : ctx.scope_3_category.getD 1 = 5
          · rw [if_pos h5]; exact ⟨_, rfl⟩
          · rw [if_neg h5]; exact ⟨_, rfl⟩

/-- C4 witness: scope 4 raises the invalid-scope error, scope 1 returns a
result. -/
theorem c4_invalid_scope_witness :
    calculate pintNone 4 "stationary_combustion" 100 "liters" 2
      "kg_co2e_per_liter" ⟨none, none, none⟩ = .error (invalidScopeMsg 4) ∧
    ∃ r, calculate pintNone 1 "stationary_combustion" 100 "liters" 2
      "kg_co2e_per_liter" ⟨none, none, none⟩ = .ok r :=
  ⟨(c4_invalid_scope pintNone 4 "stationary_combustion" 100 "liters" 2
      "kg_co2e_per_liter" ⟨none, none, none⟩).1 (by norm_num),
   (c4_invalid_scope pintNone 1 "stationary_combustion" 100 "liters" 2
      "kg_co2e_per_liter" ⟨none, none, none⟩).2 (Or.inl rfl)⟩

/-- C7: a facility whose `scope_1` reads as `None` gets
`natural_gas_therms × 0.0053` plus, per process gas, 15% of its nameplate
kg × GWP / 1000, rounded to 2 decimals, and the estimated flag. -/
theorem c7_scope1_estimate (f : Facility) (t : ℚ)
    (h1 : f.scope_1.getOpt = none) (h2 : f.natural_gas_therms = Fld.num t) :
    (fillScope1 f).scope_1 =
      Fld.num (pyRound2 (t * EF_NATURAL_GAS +
        ((f.process_gases_kg.getD []).map gasLeakTons).sum)) ∧
    (fillScope1 f).scope_1_estimated = true := by
  unfold fillScope1
  rw [if_pos h1, h2]
  refine ⟨?_, rfl⟩
  have hng : (if (Fld.num t).truthy then (Fld.num t).val * EF_NATURAL_GAS
      else 0) = t * EF_NATURAL_GAS := by
    by_cases ht : t = 0
    · simp [Fld.truthy, Fld.val, ht]
    · simp [Fld.truthy, Fld.val, ht]
  rcases hg : f.process_gases_kg with _ | gs
  · simp only [hng, hg, Option.getD, List.map_nil, List.sum_nil]
  · simp only [hng, hg, Option.getD, List.map, List.sum_cons]

/-- C7 witness: `scope_1 = None` with 1000 therms and no process gases
ends at exactly 5.3 tons, flagged as estimated. -/
theorem c7_scope1_estimate_witness :
    (fillScope1 c7Facility).scope_1 = Fld.num 5.3 ∧
    (fillScope1 c7Facility).scope_1_estimated = true := by
  have h := c7_scope1_estimate c7Facility 1000 rfl rfl
  refine ⟨?_, h.2⟩
  rw [h.1]
  congr 1
  rw [pyRound2_of_mul_hundred _ 530
    (by simp [c7Facility, emptyFacility, EF_NATURAL_GAS]; norm_num)]
  norm_num

/-- C8: with truthy `operational_months` below 12, annualization rescales
each scope value by `12 / months` and rounds to 2 decimals. -/
theorem c8_annualization (f : Facility) (m a b c : ℚ)
    (hm : f.operational_months = Fld.num m) (h0 : 0 < m) (h12 : m < 12)
    (h1 : f.scope_1 = Fld.num a) (h2 : f.scope_2 = Fld.num b)
    (h3 : f.scope_3 = Fld.num c) :
    ∃ g, annualize f = .ok g ∧
      g.scope_1 = Fld.num (pyRound2 (a * (12 / m))) ∧
      g.scope_2 = Fld.num (pyRound2 (b * (12 / m))) ∧
      g.scope_3 = Fld.num (pyRound2 (c * (12 / m))) := by
  simp only [annualize, hm, h1, h2, h3]
  rw [if_pos ⟨ne_of_gt h0, h12⟩]
  exact ⟨_, rfl, rfl, rfl, rfl⟩

/-- C8 witness: 6 operational months and `scope_1 = 100` annualize to
exactly 200. -/
theorem c8_annualization_witness :
    ∃ g, annualize c8Facility = .ok g ∧ g.scope_1 = Fld.num 200 := by
  obtain ⟨g, hg, hs1, _, _⟩ := c8_annualization c8Facility 6 100 0 0 rfl
    (by norm_num) (by norm_num) rfl rfl rfl
  refine ⟨g, hg, ?_⟩
  rw [hs1]
  congr 1
  rw [pyRound2_of_mul_hundred _ 20000 (by norm_num)]
  norm_num

/-- A field whose `get` is not `None` holds a number. -/
lemma Fld.exists_num_of_getOpt (x : Fld) (h : x.getOpt ≠ none) :
    ∃ q, x = Fld.num q := by
  rcases x with _ | _ | q
  · exact absurd rfl h
  · exact absurd rfl h
  · exact ⟨q, rfl⟩

/-- After the scope-1 estimation block, `scope_1` is always a number. -/
lemma fillScope1_scope1 (f : Facility) : ∃ q, (fillScope1 f).scope_1 = Fld.num q := by
  unfold fillScope1
  by_cases h : f.scope_1.getOpt = none
  · rw [if_pos h]
    exact ⟨_, rfl⟩
  · rw [if_neg h]
    exact Fld.exists_num_of_getOpt f.scope_1 h

/-- The scope-1 estimation block touches only `scope_1` and its flag. -/
lemma fillScope1_keeps (f : Facility) :
    (fillScope1 f).facility_id = f.facility_id ∧
    (fillScope1 f).scope_2 = f.scope_2 ∧
    (fillScope1 f).scope_3 = f.scope_3 ∧
    (fillScope1 f).operational_months = f.operational_months := by
  unfold fillScope1
  split
  · exact ⟨rfl, rfl, rfl, rfl⟩
  · exact ⟨rfl, rfl, rfl, rfl⟩

/-- The scope-2 estimation block touches only `scope_2` and its flag. -/
lemma fillScope2_keeps (f : Facility) :
    (fillScope2 f).facility_id = f.facility_id ∧
    (fillScope2 f).scope_1 = f.scope_1 ∧
    (fillScope2 f).scope_3 = f.scope_3 ∧
    (fillScope2 f).operational_months = f.operational_months := by
  unfold fillScope2
  split
  · split
    · exact ⟨rfl, rfl, rfl, rfl⟩
    · exact ⟨rfl, rfl, rfl, rfl⟩
  · exact ⟨rfl, rfl, rfl, rfl⟩

/-- When the scope-3 gap is real and `scope_1` is numeric while `scope_2`
is not an explicit `None`, the scope-3 estimation block succeeds and sets
`scope_3` to a number, leaving the other fields alone. -/
lemma fillScope3_fills (f : Facility) (hq : ∃ q, f.scope_1 = Fld.num q)
    (h3 : f.scope_3.getOpt = none) (h2 : f.scope_2 ≠ Fld.null) :
    ∃ g, fillScope3 f = .ok g ∧ g.scope_1 = f.scope_1 ∧ g.scope_2 = f.scope_2 ∧
      (∃ r, g.scope_3 = Fld.num r) ∧
      g.operational_months = f.operational_months := by
  obtain ⟨q, hq⟩ := hq
  unfold fillScope3
  rw [if_pos h3, hq]
  rcases hf2 : f.scope_2 with _ | _ | b
  · exact ⟨_, rfl, rfl, rfl, ⟨_, rfl⟩, rfl⟩
  · exact absurd hf2 h2
  · exact ⟨_, rfl, rfl, rfl, ⟨_, rfl⟩, rfl⟩

/-- When the scope-3 slot already reads as a value, the scope-3 block is
the identity. -/
lemma fillScope3_skip (f : Facility) (h3 : f.scope_3.getOpt ≠ none) :
    fillScope3 f = .ok f := by
  unfold fillScope3
  rw [if_neg h3]

/-- Annualization succeeds when `scope_1`/`scope_3` are numeric and
`scope_2` is numeric whenever the block actually fires. -/
lemma annualize_ok_of (f : Facility) (h1 : ∃ a, f.scope_1 = Fld.num a)
    (h3 : ∃ c, f.scope_3 = Fld.num c)
    (h2 : annualizeActive f.operational_months = false ∨
      ∃ b, f.scope_2 = Fld.num b) :
    ∃ g, annualize f = .ok g := by
  obtain ⟨a, ha⟩ := h1
  obtain ⟨c, hc⟩ := h3
  rcases hm : f.operational_months with _ | _ | m
  · simp only [annualize, hm]
    exact ⟨_, rfl⟩
  · simp only [annualize, hm]
    exact ⟨_, rfl⟩
  · simp only [annualize, hm]
    by_cases hcond : m ≠ 0 ∧ m < 12
    · rcases h2 with h2f | ⟨b, hb⟩
      · rw [hm] at h2f
        simp [annualizeActive, hcond.1, hcond.2] at h2f
      · rw [if_pos hcond, ha, hb, hc]
        exact ⟨_, rfl⟩
    · rw [if_neg hcond]
      exact ⟨_, rfl⟩

/-- Under `fillSafe`, one loop iteration of the estimation stage cannot
raise. -/
lemma fillFacility_ok (f : Facility) (h : fillSafe f = true) :
    ∃ g, fillFacility f = .ok g := by
  have h' := h
  unfold fillSafe at h'
  rw [Bool.and_eq_true, Bool.and_eq_true] at h'
  obtain ⟨⟨hid, hs3⟩, hann⟩ := h'
  obtain ⟨fid, hfid⟩ := Option.isSome_iff_exists.mp hid
  obtain ⟨q1, hq1⟩ : ∃ q, (fillScope2 (fillScope1 f)).scope_1 = Fld.num q := by
    obtain ⟨q, hq⟩ := fillScope1_scope1 f
    exact ⟨q, ((fillScope2_keeps (fillScope1 f)).2.1).trans hq⟩
  have hop2 : (fillScope2 (fillScope1 f)).operational_months =
      f.operational_months :=
    ((fillScope2_keeps (fillScope1 f)).2.2.2).trans
      ((fillScope1_keeps f).2.2.2)
  have hannG : annualizeActive f.operational_months = false ∨
      (fillScope2 (fillScope1 f)).scope_2.isNum = true := by
    rcases Bool.or_eq_true _ _ |>.mp hann with hl | hr
    · left
      simpa using hl
    · right
      exact hr
  simp only [fillFacility, hfid]
  by_cases h3 : (fillScope2 (fillScope1 f)).scope_3.getOpt = none
  · have h2 : (fillScope2 (fillScope1 f)).scope_2 ≠ Fld.null := by
      rcases Bool.or_eq_true _ _ |>.mp hs3 with hl | hr
      · exfalso
        rw [h3] at hl
        simp [Option.isNone] at hl
      · intro hcontr
        rw [hcontr] at hr
        simp [Fld.isNull] at hr
    obtain ⟨g, hfill, hgs1, hgs2, ⟨r, hr⟩, hgop⟩ :=
      fillScope3_fills (fillScope2 (fillScope1 f)) ⟨q1, hq1⟩ h3 h2
    rw [hfill]
    apply annualize_ok_of g ⟨q1, hgs1.trans hq1⟩ ⟨r, hr⟩
    rcases hannG with hfalse | hnum
    · left
      rw [hgop, hop2]
      exact hfalse
    · right
      rcases hn : (fillScope2 (fillScope1 f)).scope_2 with _ | _ | b
      · rw [hn] at hnum
        simp [Fld.isNum] at hnum
      · rw [hn] at hnum
        simp [Fld.isNum] at hnum
      · exact ⟨b, hgs2.trans hn⟩
  · rw [fillScope3_skip _ h3]
    apply annualize_ok_of _ ⟨q1, hq1⟩
      (Fld.exists_num_of_getOpt _ h3)
    rcases hannG with hfalse | hnum
    · left
      rw [hop2]
      exact hfalse
    · right
      rcases hn : (fillScope2 (fillScope1 f)).scope_2 with _ | _ | b
      · rw [hn] at hnum
        simp [Fld.isNum] at hnum
      · rw [hn] at hnum
        simp [Fld.isNum] at hnum
      · exact ⟨b, rfl⟩

/-- C2 amended: the estimation/annualization stage never raises provided
every facility satisfies `fillSafe` — it has a `facility_id`; a `scope_2`
left as an explicit `None` that the stage cannot estimate (no truthy
electricity) is not consumed by the scope-3 estimate; and a `scope_2`
left missing or `None` is not consumed by partial-year annualization.
The unamended claim fails on both gaps: see the counterexample. -/
theorem c2_never_raises_amended (fs : List Facility)
    (h : ∀ f ∈ fs, fillSafe f = true) :
    ∃ out, fill_missing_scope_data fs = .ok out := by
  induction fs with
  | nil => exact ⟨[], rfl⟩
  | cons f rest ih =>
    obtain ⟨g, hg⟩ := fillFacility_ok f (h f (List.mem_cons_self f rest))
    obtain ⟨out, hout⟩ := ih (fun x hx => h x (List.mem_cons_of_mem f hx))
    refine ⟨g :: out, ?_⟩
    simp only [fill_missing_scope_data]
    rw [hg, hout]
    rfl

/-- C2 amended witness: a facility with a `None` scope 1, gas data and no
electricity satisfies the safety condition and the stage succeeds on it. -/
theorem c2_never_raises_witness :
    fillSafe c7Facility = true ∧
    ∃ out, fill_missing_scope_data [c7Facility] = .ok out := by
  refine ⟨rfl, c2_never_raises_amended [c7Facility] ?_⟩
  intro f hf
  rw [List.mem_singleton] at hf
  subst hf
  rfl

/-- Facility sums succeed when no summed field is an explicit `None`. -/
lemma sumScope_ok (field : Facility → Fld) (fs : List Facility)
    (h : ∀ f ∈ fs, field f ≠ Fld.null) : ∃ s, sumScope field fs = .ok s := by
  induction fs with
  | nil => exact ⟨0, rfl⟩
  | cons f rest ih =>
    obtain ⟨s, hs⟩ := ih (fun x hx => h x (List.mem_cons_of_mem f hx))
    have hf := h f (List.mem_cons_self f rest)
    rcases hfld : field f with _ | _ | q
    · simp only [sumScope, hfld, Fld.getD]
      rw [hs]
      exact ⟨_, rfl⟩
    · exact absurd hfld hf
    · simp only [sumScope, hfld, Fld.getD]
      rw [hs]
      exact ⟨_, rfl⟩

/-- The breakdown builder succeeds when every present handled entry has a
`total_emissions_estimate`, and its values are exactly the estimates of
the handled categories present. -/
lemma buildBreakdown_ok (cats : List (ℤ × String)) (raw : S3Raw)
    (h : ∀ p ∈ cats, assocFind raw p.2 ≠ some none) :
    ∃ bd, buildBreakdown cats raw = .ok bd ∧
      bd.map Prod.snd = cats.filterMap (fun p => (assocFind raw p.2).bind id) := by
  induction cats with
  | nil => exact ⟨[], rfl, rfl⟩
  | cons p rest ih =>
    obtain ⟨n, key⟩ := p
    obtain ⟨bd, hbd, hmap⟩ := ih (fun x hx => h x (List.mem_cons_of_mem _ hx))
    rcases hfind : assocFind raw key with _ | v
    · refine ⟨bd, ?_, ?_⟩
      · simp only [buildBreakdown, hfind]
        exact hbd
      · rw [hmap, List.filterMap_cons]
        simp [hfind]
    · rcases v with _ | q
      · exact absurd hfind (h ⟨n, key⟩ (List.mem_cons_self _ _))
      · refine ⟨(n, q) :: bd, ?_, ?_⟩
        · simp only [buildBreakdown, hfind]
          rw [hbd]
          rfl
        · rw [List.map_cons, hmap, List.filterMap_cons]
          simp [hfind]

/-- C3 amended: the pipeline's company-level `scope_3_total` equals the
sum of the `total_emissions_estimate` values of the handled categories
(1, 3, 4, 5, 6, 7) present in the independently supplied scope-3 raw
structure — 0 when none are present — regardless of the per-facility
scope_3 values. Estimates filed under other category keys (e.g.
`category_11`) are ignored, which is where the unamended claim fails. -/
theorem c3_scope3_total_amended (fs : List Facility) (raw : S3Raw)
    (hfs : ∀ f ∈ fs, f.scope_1 ≠ Fld.null ∧ f.scope_2 ≠ Fld.null ∧
      f.scope_3 ≠ Fld.null)
    (hraw : ∀ p ∈ handledCategories, assocFind raw p.2 ≠ some none) :
    ∃ t, calculate_totals fs raw = .ok t ∧
      t.scope_3_total = handledScope3Sum raw := by
  obtain ⟨s1, h1⟩ := sumScope_ok Facility.scope_1 fs (fun f hf => (hfs f hf).1)
  obtain ⟨s2, h2⟩ := sumScope_ok Facility.scope_2 fs (fun f hf => (hfs f hf).2.1)
  obtain ⟨s3, h3⟩ := sumScope_ok Facility.scope_3 fs (fun f hf => (hfs f hf).2.2)
  obtain ⟨bd, hbd, hmap⟩ := buildBreakdown_ok handledCategories raw hraw
  refine ⟨⟨s1, s2, (bd.map Prod.snd).sum, bd⟩, ?_, ?_⟩
  · unfold calculate_totals
    rw [h1, h2, h3, hbd]
    rfl
  · show (bd.map Prod.snd).sum = handledScope3Sum raw
    rw [hmap]
    rfl

/-- C3 amended witness: one numeric facility and a raw structure holding
estimates for categories 3 and 11; the total picks up exactly the handled
category-3 estimate. -/
theorem c3_scope3_total_witness :
    (∃ t, calculate_totals [numFacility] c3WitnessRaw = .ok t ∧
      t.scope_3_total = handledScope3Sum c3WitnessRaw) ∧
    handledScope3Sum c3WitnessRaw = 198650.4 := by
  constructor
  · apply c3_scope3_total_amended [numFacility] c3WitnessRaw
    · intro f hf
      rw [List.mem_singleton] at hf
      subst hf
      exact ⟨by decide, by decide, by decide⟩
    · decide
  · rw [show handledScope3Sum c3WitnessRaw = 198650.4 + 0 from rfl]
    norm_num

/-- Concrete rounding facts for the quality scores. -/
lemma pyRound2_five : pyRound2 5 = 5 := by
  rw [pyRound2_of_mul_hundred 5 500 (by norm_num)]
  norm_num

/-- Rounding fixes 4.5. -/
lemma pyRound2_fourHalf : pyRound2 4.5 = 4.5 := by
  rw [pyRound2_of_mul_hundred 4.5 450 (by norm_num)]
  norm_num

/-- Rounding fixes 2.5. -/
lemma pyRound2_twoHalf : pyRound2 2.5 = 2.5 := by
  rw [pyRound2_of_mul_hundred 2.5 250 (by norm_num)]
  norm_num

/-- Quality-loop emissions succeed exactly on `None`-free scope fields. -/
lemma facilityEmissions_ok (f : Facility) (h1 : f.scope_1 ≠ Fld.null)
    (h2 : f.scope_2 ≠ Fld.null) (h3 : f.scope_3 ≠ Fld.null) :
    facilityEmissions f = .ok (facEmVal f) := by
  unfold facilityEmissions facEmVal
  rcases hf1 : f.scope_1 with _ | _ | a <;>
    rcases hf2 : f.scope_2 with _ | _ | b <;>
      rcases hf3 : f.scope_3 with _ | _ | c <;>
        simp_all [Fld.getD, Fld.val]

/-- The quality accumulator returns the total emissions and the
emissions-weighted score sum. -/
lemma qualityAccum_ok (fs : List Facility)
    (h : ∀ f ∈ fs, f.scope_1 ≠ Fld.null ∧ f.scope_2 ≠ Fld.null ∧
      f.scope_3 ≠ Fld.null) :
    qualityAccum fs = .ok (totalEmissions fs,
      (fs.map (fun f => facEmVal f * facilityScore f)).sum) := by
  induction fs with
  | nil => rfl
  | cons f rest ih =>
    have hf := h f (List.mem_cons_self f rest)
    simp only [qualityAccum]
    rw [facilityEmissions_ok f hf.1 hf.2.1 hf.2.2,
      ih (fun x hx => h x (List.mem_cons_of_mem f hx))]
    rfl

/-- The completeness counter succeeds on `None`-free completeness
fields. -/
lemma completeCount_ok (fs : List Facility)
    (h : ∀ f ∈ fs, f.reporting_completeness ≠ Fld.null) :
    ∃ n, completeCount fs = .ok n := by
  induction fs with
  | nil => exact ⟨0, rfl⟩
  | cons f rest ih =>
    obtain ⟨n, hn⟩ := ih (fun x hx => h x (List.mem_cons_of_mem f hx))
    rcases hfld : f.reporting_completeness with _ | _ | q
    · simp only [completeCount, hfld, Fld.getD]
      rw [hn]
      exact ⟨_, rfl⟩
    · exact absurd hfld (h f (List.mem_cons_self f rest))
    · simp only [completeCount, hfld, Fld.getD]
      rw [hn]
      exact ⟨_, rfl⟩

/-- A Tier 1 facility scores 5.0 minus 0.5 per estimated-scope flag. -/
lemma facilityScore_tier1 (f : Facility)
    (ht : f.data_quality = some "Tier 1") :
    facilityScore f = 5.0 - 0.5 * (estFlagCount f : ℚ) := by
  unfold facilityScore estFlagCount
  rw [ht]
  rw [show assocD tier_scores ((some "Tier 1").getD "Tier 3") (2.0 : ℚ) = 5.0
    from rfl]
  cases h1 : f.scope_1_estimated <;> cases h2 : f.scope_2_estimated <;>
    cases h3 : f.scope_3_estimated <;> simp <;> norm_num

/-- Weighted score sum when every facility has the same score. -/
lemma sum_weighted_of_score (fs : List Facility) (s : ℚ)
    (h : ∀ f ∈ fs, facilityScore f = s) :
    (fs.map (fun f => facEmVal f * facilityScore f)).sum =
      s * totalEmissions fs := by
  induction fs with
  | nil => simp [totalEmissions]
  | cons f rest ih =>
    simp only [List.map_cons, List.sum_cons, totalEmissions] at ih ⊢
    rw [h f (List.mem_cons_self f rest),
      ih (fun x hx => h x (List.mem_cons_of_mem f hx))]
    ring

/-- Weighted score sum of zero-emission facilities vanishes. -/
lemma sum_weighted_zero (fs : List Facility)
    (h : ∀ f ∈ fs, facEmVal f = 0) :
    (fs.map (fun f => facEmVal f * facilityScore f)).sum = 0 := by
  induction fs with
  | nil => rfl
  | cons f rest ih =>
    simp only [List.map_cons, List.sum_cons]
    rw [h f (List.mem_cons_self f rest),
      ih (fun x hx => h x (List.mem_cons_of_mem f hx)), zero_mul, add_zero]

/-- Total emissions of zero-emission facilities vanish. -/
lemma totalEmissions_zero (fs : List Facility)
    (h : ∀ f ∈ fs, facEmVal f = 0) : totalEmissions fs = 0 := by
  induction fs with
  | nil => rfl
  | cons f rest ih =>
    simp only [totalEmissions, List.map_cons, List.sum_cons] at ih ⊢
    rw [h f (List.mem_cons_self f rest),
      ih (fun x hx => h x (List.mem_cons_of_mem f hx)), add_zero]

/-- Closed form of `assess_data_quality` from its loop results. -/
lemma assess_eq (fs : List Facility) (te ws : ℚ) (n : ℕ)
    (hacc : qualityAccum fs = .ok (te, ws))
    (hn : completeCount fs = .ok n) (hne : fs ≠ []) :
    assess_data_quality fs = .ok
      ⟨pyRound2 (if te > 0 then ws / te else 2.5),
       if fs.length ≠ 0 then (n : ℚ) / fs.length else 0,
       (estimatedCount fs : ℚ) / fs.length⟩ := by
  have hlen : fs.length ≠ 0 := by
    simpa [List.length_eq_zero] using hne
  unfold assess_data_quality
  rw [hacc, hn]
  show (if fs.length = 0 then
      (Except.error "ZeroDivisionError: division by zero" :
        Except String QualityMetrics)
    else .ok ⟨pyRound2 (if te > 0 then ws / te else 2.5),
      if fs.length ≠ 0 then (n : ℚ) / fs.length else 0,
      (estimatedCount fs : ℚ) / fs.length⟩) = _
  rw [if_neg hlen]

/-- C6: with all facilities Tier 1 and nothing estimated the overall
quality score is 5.0 (given positive total emissions); with exactly one
estimated scope on the facility holding all emissions it is exactly 4.5;
with zero total emissions it defaults to 2.5. -/
theorem c6_quality_score :
    (∀ fs, (∀ f ∈ fs, tier1Numeric f ∧ estFlagCount f = 0) →
      0 < totalEmissions fs →
      ∃ qm, assess_data_quality fs = .ok qm ∧ qm.data_quality_score = 5) ∧
    (∀ f₀ rest, tier1Numeric f₀ → estFlagCount f₀ = 1 → 0 < facEmVal f₀ →
      (∀ f ∈ rest, tier1Numeric f ∧ estFlagCount f = 0 ∧ facEmVal f = 0) →
      ∃ qm, assess_data_quality (f₀ :: rest) = .ok qm ∧
        qm.data_quality_score = 4.5) ∧
    (∀ fs, fs ≠ [] → (∀ f ∈ fs, tier1Numeric f) → totalEmissions fs = 0 →
      ∃ qm, assess_data_quality fs = .ok qm ∧
        qm.data_quality_score = 2.5) := by
  refine ⟨?_, ?_, ?_⟩
  · intro fs hfs hT
    have hnull : ∀ f ∈ fs, f.scope_1 ≠ Fld.null ∧ f.scope_2 ≠ Fld.null ∧
        f.scope_3 ≠ Fld.null :=
      fun f hf => ⟨((hfs f hf).1).2.1, ((hfs f hf).1).2.2.1, ((hfs f hf).1).2.2.2.1⟩
    have hsc : ∀ f ∈ fs, facilityScore f = 5 := by
      intro f hf
      rw [facilityScore_tier1 f ((hfs f hf).1).1, (hfs f hf).2]
      norm_num
    have hacc := qualityAccum_ok fs hnull
    rw [sum_weighted_of_score fs 5 hsc] at hacc
    obtain ⟨n, hn⟩ := completeCount_ok fs
      (fun f hf => ((hfs f hf).1).2.2.2.2)
    have hne : fs ≠ [] := by
      rintro rfl
      rw [show totalEmissions [] = 0 from rfl] at hT
      exact lt_irrefl 0 hT
    refine ⟨_, assess_eq fs _ _ n hacc hn hne, ?_⟩
    show pyRound2 (if totalEmissions fs > 0
      then 5 * totalEmissions fs / totalEmissions fs else 2.5) = 5
    rw [if_pos hT, mul_div_assoc, div_self hT.ne', mul_one]
    exact pyRound2_five
  · intro f₀ rest h₀ hcnt hem hrest
    have hnull : ∀ f ∈ f₀ :: rest, f.scope_1 ≠ Fld.null ∧
        f.scope_2 ≠ Fld.null ∧ f.scope_3 ≠ Fld.null := by
      intro f hf
      rcases List.mem_cons.mp hf with rfl | hf'
      · exact ⟨h₀.2.1, h₀.2.2.1, h₀.2.2.2.1⟩
      · exact ⟨((hrest f hf').1).2.1, ((hrest f hf').1).2.2.1,
          ((hrest f hf').1).2.2.2.1⟩
    have hacc := qualityAccum_ok (f₀ :: rest) hnull
    have hT : totalEmissions (f₀ :: rest) = facEmVal f₀ := by
      have : totalEmissions rest = 0 :=
        totalEmissions_zero rest (fun f hf => (hrest f hf).2.2)
      simp only [totalEmissions, List.map_cons, List.sum_cons]
      simp only [totalEmissions] at this
      rw [this, add_zero]
    have hW : (List.map (fun f => facEmVal f * facilityScore f)
        (f₀ :: rest)).sum = facEmVal f₀ * 4.5 := by
      rw [List.map_cons, List.sum_cons,
        sum_weighted_zero rest (fun f hf => (hrest f hf).2.2), add_zero,
        facilityScore_tier1 f₀ h₀.1, hcnt]
      norm_num
    rw [hT, hW] at hacc
    obtain ⟨n, hn⟩ := completeCount_ok (f₀ :: rest) (by
      intro f hf
      rcases List.mem_cons.mp hf with rfl | hf'
      · exact h₀.2.2.2.2
      · exact ((hrest f hf').1).2.2.2.2)
    refine ⟨_, assess_eq (f₀ :: rest) _ _ n hacc hn (by simp), ?_⟩
    show pyRound2 (if facEmVal f₀ > 0
      then facEmVal f₀ * 4.5 / facEmVal f₀ else 2.5) = 4.5
    rw [if_pos hem, mul_comm, mul_div_assoc, div_self hem.ne', mul_one]
    exact pyRound2_fourHalf
  · intro fs hne hfs hT0
    have hnull : ∀ f ∈ fs, f.scope_1 ≠ Fld.null ∧ f.scope_2 ≠ Fld.null ∧
        f.scope_3 ≠ Fld.null :=
      fun f hf => ⟨(hfs f hf).2.1, (hfs f hf).2.2.1, (hfs f hf).2.2.2.1⟩
    have hacc := qualityAccum_ok fs hnull
    rw [hT0] at hacc
    obtain ⟨n, hn⟩ := completeCount_ok fs (fun f hf => (hfs f hf).2.2.2.2)
    refine ⟨_, assess_eq fs _ _ n hacc hn hne, ?_⟩
    show pyRound2 (if (0 : ℚ) > 0 then _ / 0 else 2.5) = 2.5
    rw [if_neg (lt_irrefl 0)]
    exact pyRound2_twoHalf

/-- C6 witness: the three clauses at one-facility companies — clean Tier 1
(score 5), one estimated scope holding all emissions (score 4.5), zero
emissions (score 2.5). -/
theorem c6_quality_score_witness :
    (∃ qm, assess_data_quality [c6CleanFacility] = .ok qm ∧
      qm.data_quality_score = 5) ∧
    (∃ qm, assess_data_quality [c6EstFacility] = .ok qm ∧
      qm.data_quality_score = 4.5) ∧
    (∃ qm, assess_data_quality [c6ZeroFacility] = .ok qm ∧
      qm.data_quality_score = 2.5) := by
  refine ⟨?_, ?_, ?_⟩
  · apply c6_quality_score.1 [c6CleanFacility]
    · intro f hf
      rw [List.mem_singleton] at hf
      subst hf
      exact ⟨⟨rfl, by decide, by decide, by decide, by decide⟩, rfl⟩
    · rw [show totalEmissions [c6CleanFacility] = 100 + 0 + 0 + 0 from rfl]
      norm_num
  · apply c6_quality_score.2.1 c6EstFacility []
    · exact ⟨rfl, by decide, by decide, by decide, by decide⟩
    · rfl
    · rw [show facEmVal c6EstFacility = 100 + 0 + 0 from rfl]
      norm_num
    · intro f hf
      exact absurd hf (List.not_mem_nil f)
  · apply c6_quality_score.2.2 [c6ZeroFacility] (by simp)
    · intro f hf
      rw [List.mem_singleton] at hf
      subst hf
      exact ⟨rfl, by decide, by decide, by decide, by decide⟩
    · rw [show totalEmissions [c6ZeroFacility] = 0 + 0 + 0 + 0 from rfl]
      norm_num

end GHG
